import Mathlib

/-
Verification of the solar-system animation and transform-composition engine.

The embedding follows the source of the repository:
  js/app/astronomical_object.js  (Body construction and per-frame animation)
  js/app/app.js                  (frame driver and frame timing)
  js/app/solar_system.js         (the concrete body configurations)

Graphics-library matrices (glMatrix mat4, column-major, acting on column
vectors) are modelled as 4 x 4 real matrices.  glMatrix mat4.translate and
mat4.rotate post-multiply their matrix argument by a translation matrix,
resp. by the rotation matrix about the (internally normalised) given axis;
mat4.multiply is matrix multiplication.  JavaScript numbers are modelled as
real numbers; the numeric literals of the configuration records are kept as
rationals so that the JavaScript falsiness test (value or 0) stays decidable.
-/

noncomputable section

namespace SolarSim

abbrev Mat4 := Matrix (Fin 4) (Fin 4) ℝ

abbrev Vec3 := Fin 3 → ℝ

/-- Translation matrix of the glMatrix library (column-major, acting on
column vectors): the image of a point p is p + v. -/
def translationMat (v : Vec3) : Mat4 :=
  Matrix.of ![![1, 0, 0, v 0],
              ![0, 1, 0, v 1],
              ![0, 0, 1, v 2],
              ![0, 0, 0, 1]]

/-- Rotation matrix of the glMatrix library about the given axis, which the
library first normalises. -/
def rotationMat (rad : ℝ) (axis : Vec3) : Mat4 :=
  let len := Real.sqrt (axis 0 ^ 2 + axis 1 ^ 2 + axis 2 ^ 2)
  let x := axis 0 / len
  let y := axis 1 / len
  let z := axis 2 / len
  let s := Real.sin rad
  let c := Real.cos rad
  let t := 1 - c
  Matrix.of ![![x * x * t + c, x * y * t - z * s, x * z * t + y * s, 0],
              ![y * x * t + z * s, y * y * t + c, y * z * t - x * s, 0],
              ![z * x * t - y * s, z * y * t + x * s, z * z * t + c, 0],
              ![0, 0, 0, 1]]

/-- The world Y axis, the axis `[0, 1, 0]` of the source. -/
def yAxis : Vec3 := ![0, 1, 0]

/-- glMatrix mat4.translate: post-multiply by a translation. -/
def mat4translate (m : Mat4) (v : Vec3) : Mat4 := m * translationMat v

/-- glMatrix mat4.rotate: post-multiply by a rotation about the given axis. -/
def mat4rotate (m : Mat4) (rad : ℝ) (axis : Vec3) : Mat4 := m * rotationMat rad axis

/-- The state of one AstronomicalObject.  The field orbits records the
truthiness of the orbits reference (whether this body orbits another body);
the referenced body itself is passed explicitly to the operations that read
it, since the embedding is stateless while the source mutates shared
objects in place. -/
structure Body where
  name : String
  orbits : Bool
  orbitDistance : ℝ
  orbitalPeriod : ℝ
  spinPeriod : ℝ
  radius : ℝ
  spherical : Bool
  useLighting : Bool
  spins : Bool
  spinsClockwise : Bool
  axis : ℝ
  axisArray : Vec3
  distanceFromBodyWeAreOrbiting : ℝ
  origin : Vec3
  lastSpinAngle : ℝ
  lastOrbitAngle : ℝ
  cumulativeOrbitAngle : ℝ
  modelViewMatrix : Mat4
  isNotFirstAnimationFrame : Bool

/-- The configuration record passed to the AstronomicalObject constructor.
A missing JavaScript property is none.  Numeric configuration literals are
rationals (all literals of solar_system.js are decimal fractions).  The
texture and shortcut-key properties are consumed by the rendering and input
collaborators only and play no part in the animation state, so they are not
modelled. -/
structure Config where
  name : Option String := none
  origin : Option Vec3 := none
  orbits : Option Body := none
  orbitDistance : Option ℚ := none
  orbitalPeriod : Option ℚ := none
  spinPeriod : Option ℚ := none
  radius : Option ℚ := none
  axis : Option ℚ := none
  spherical : Option Bool := none
  useLighting : Option Bool := none
  spins : Option Bool := none
  spinsClockwise : Option Bool := none

/-- JavaScript `value || default` for numeric configuration values: the
default is taken when the property is missing or 0 (both falsy). -/
def jsNumOr (v : Option ℚ) (d : ℚ) : ℚ :=
  match v with
  | none => d
  | some x => if x = 0 then d else x

/-- Method getBoolean: strict comparison with undefined, so only a missing
property takes the default (false stays false). -/
def getBoolean (attributeValue : Option Bool) (defaultValue : Bool) : Bool :=
  attributeValue.getD defaultValue

/-- Method degreesToRadians. -/
def degreesToRadians (celsius : ℝ) : ℝ := celsius * (Real.pi / 180)

/-- Method setAxis: stores the axis in radians and derives the (unnormalised)
spin-axis direction interpolated between the Y and X axes. -/
def setAxis (b : Body) (axis : Option ℚ) : Body :=
  let a := degreesToRadians ((jsNumOr axis 0 : ℚ) : ℝ)
  { b with
    axis := a,
    axisArray := ![a / degreesToRadians 90, 1 - a / degreesToRadians 90, 0] }

/-- Method normalise: cosmetic rescaling of orbit distance and radius. -/
def normalise (b : Body) : Body :=
  { b with orbitDistance := b.orbitDistance / 50000, radius := b.radius / 100 }

/-- Method prepareSpecialCases.  The orbitsRef argument is the orbits
reference of the body (its truthiness is b.orbits).  A ring configuration
without a parent is unreachable in the repository (the source would read
fields of the boolean false, yielding undefined); the embedding leaves the
body unchanged in that dead corner. -/
def prepareSpecialCases (b : Body) (orbitsRef : Option Body) : Body :=
  let b1 := { b with distanceFromBodyWeAreOrbiting := (0 : ℝ) }
  let b2 := match orbitsRef with
    | some p =>
        { b1 with distanceFromBodyWeAreOrbiting := b1.radius + b1.orbitDistance + p.radius }
    | none => b1
  if b2.name = "Sun" then { b2 with radius := b2.radius / 10 }
  else if b2.name = "Saturn\x27s Rings" then
    match orbitsRef with
    | some p =>
        { b2 with
          distanceFromBodyWeAreOrbiting := 0,
          orbitalPeriod := p.orbitalPeriod,
          spinPeriod := p.spinPeriod }
    | none => b2
  else b2

/-- Method setAttributes, including its calls to setAxis, normalise and
prepareSpecialCases.  The JavaScript defaults use the falsy-or operator for
strings and numbers and getBoolean for the booleans. -/
def setAttributes (b : Body) (c : Config) : Body :=
  let b1 := { b with
    name := c.name.getD "name not set",
    orbits := c.orbits.isSome,
    orbitDistance := ((jsNumOr c.orbitDistance 0 : ℚ) : ℝ),
    orbitalPeriod := ((jsNumOr c.orbitalPeriod 1 : ℚ) : ℝ),
    spinPeriod := ((jsNumOr c.spinPeriod 1 : ℚ) : ℝ),
    radius := ((jsNumOr c.radius 10 : ℚ) : ℝ),
    spherical := getBoolean c.spherical true,
    useLighting := getBoolean c.useLighting true,
    spins := getBoolean c.spins true,
    spinsClockwise := getBoolean c.spinsClockwise false }
  prepareSpecialCases (normalise (setAxis b1 c.axis)) c.orbits

/-- Method setOrigin: explicit origin, or derived from the orbited body, or
the world origin. -/
def setOrigin (b : Body) (origin : Option Vec3) (orbitsRef : Option Body) : Body :=
  match origin with
  | some o => { b with origin := o }
  | none =>
    match orbitsRef with
    | some p =>
        { b with origin := ![p.origin 0, p.origin 1,
                             p.origin 2 - b.distanceFromBodyWeAreOrbiting] }
    | none => { b with origin := ![0, 0, 0] }

/-- Method setRandomStartingOrbit.  The draw of Math.random is the explicit
parameter u, so the randomised starting phase is 2 pi / u, negated for
clockwise spinners; rings get the fixed 90 degree phase. -/
def setRandomStartingOrbit (b : Body) (hasOrbits : Bool) (u : ℝ) : Body :=
  let b1 := { b with lastSpinAngle := (0 : ℝ), lastOrbitAngle := (0 : ℝ),
                     cumulativeOrbitAngle := (0 : ℝ) }
  if b1.name = "Saturn\x27s Rings" then
    let saturnsRingsAngle := degreesToRadians 90
    { b1 with lastOrbitAngle := saturnsRingsAngle,
              cumulativeOrbitAngle := saturnsRingsAngle }
  else if hasOrbits then
    let randomStartingOrbit0 := Real.pi * 2 / u
    let randomStartingOrbit :=
      if b1.spinsClockwise then -randomStartingOrbit0 else randomStartingOrbit0
    { b1 with lastOrbitAngle := randomStartingOrbit,
              cumulativeOrbitAngle := randomStartingOrbit }
  else b1

/-- Method initMatrix: the initial model view matrix, with the extra
pre-rotation and pre-translation when the orbited body itself orbits. -/
def initMatrix (b : Body) (orbitsRef : Option Body) : Body :=
  let m : Mat4 := 1
  let m1 := match orbitsRef with
    | some p =>
        if p.orbits then mat4translate (mat4rotate m p.lastOrbitAngle yAxis) p.origin
        else m
    | none => m
  let m2 := mat4translate (mat4rotate m1 b.lastOrbitAngle yAxis)
              ![0, 0, -b.distanceFromBodyWeAreOrbiting]
  { b with modelViewMatrix := m2 }

/-- An uninitialised body; the constructor stages overwrite every field that
is later read, mirroring the initially empty JavaScript object. -/
def emptyBody : Body :=
  { name := ""
    orbits := false
    orbitDistance := 0
    orbitalPeriod := 0
    spinPeriod := 0
    radius := 0
    spherical := false
    useLighting := false
    spins := false
    spinsClockwise := false
    axis := 0
    axisArray := ![0, 0, 0]
    distanceFromBodyWeAreOrbiting := 0
    origin := ![0, 0, 0]
    lastSpinAngle := 0
    lastOrbitAngle := 0
    cumulativeOrbitAngle := 0
    modelViewMatrix := 1
    isNotFirstAnimationFrame := false }

/-- The AstronomicalObject constructor: setAttributes, setOrigin,
setRandomStartingOrbit, initMatrix (texture and buffer initialisation are
rendering-side effects with no bearing on the animation state). -/
def construct (c : Config) (u : ℝ) : Body :=
  initMatrix
    (setRandomStartingOrbit
      (setOrigin (setAttributes emptyBody c) c.origin c.orbits)
      c.orbits.isSome u)
    c.orbits

/-- Method calculatePortionOf: the angle in radians covered in the elapsed
milliseconds, for a period of the given number of simulated days. -/
def calculatePortionOf (attributeDays msSinceLastFrame msPerDay : ℝ) : ℝ :=
  Real.pi * 2 * (msSinceLastFrame / (msPerDay * attributeDays))

/-- Method beforeOrbit: the un-spin rotations, skipped on the first frame. -/
def beforeOrbit (b : Body) (tm : Mat4) : Mat4 :=
  if b.isNotFirstAnimationFrame then
    let angle := if b.spinsClockwise then b.lastSpinAngle else -b.lastSpinAngle
    mat4rotate (mat4rotate tm angle yAxis) (-1) b.axisArray
  else tm

/-- Method afterOrbit: reapply the axial tilt and the accumulated spin. -/
def afterOrbit (b : Body) (spinAmount : ℝ) (m : Mat4) : Mat4 :=
  let angle := if b.spinsClockwise then -b.lastSpinAngle - spinAmount
               else b.lastSpinAngle + spinAmount
  mat4rotate (mat4rotate m 1 b.axisArray) angle yAxis

/-- Method updateAttributes: the per-frame angle bookkeeping. -/
def updateAttributes (b : Body) (orbitAmount spinAmount : ℝ) : Body :=
  { b with
    lastOrbitAngle := orbitAmount,
    cumulativeOrbitAngle := b.cumulativeOrbitAngle + orbitAmount,
    lastSpinAngle := b.lastSpinAngle + spinAmount }

/-- Steps 3 to 5 of the orbit composition for a body whose orbited body does
not itself orbit (the NORMAL PLANETS branch of animate). -/
def orbitStepPlanet (b : Body) (orbitAmount : ℝ) (tm : Mat4) : Mat4 :=
  mat4translate
    (mat4rotate
      (mat4translate tm ![0, 0, b.distanceFromBodyWeAreOrbiting])
      orbitAmount yAxis)
    ![0, 0, -b.distanceFromBodyWeAreOrbiting]

/-- Steps 1 to 7 of the orbit composition for a body whose orbited body p
itself orbits (the MOONS branch of animate). -/
def orbitStepMoon (b p : Body) (orbitAmount : ℝ) (tm : Mat4) : Mat4 :=
  mat4translate
    (mat4rotate
      (mat4translate
        (mat4rotate
          (mat4translate
            (mat4rotate
              (mat4translate tm ![0, 0, b.distanceFromBodyWeAreOrbiting])
              (-b.cumulativeOrbitAngle) yAxis)
            ![0, 0, p.distanceFromBodyWeAreOrbiting])
          p.lastOrbitAngle yAxis)
        ![0, 0, -p.distanceFromBodyWeAreOrbiting])
      (b.cumulativeOrbitAngle + orbitAmount) yAxis)
    ![0, 0, -b.distanceFromBodyWeAreOrbiting]

/-- Method animate: one frame of motion for one body.  The orbits reference
of the body is the orbitsRef argument (present exactly when b.orbits); when
the body orbits, the referenced body carries the current values of the
fields the source reads through this.orbits. -/
def animate (b : Body) (orbitsRef : Option Body) (msPerDay msSinceLastFrame : ℝ) : Body :=
  let orbitAmount := calculatePortionOf b.orbitalPeriod msSinceLastFrame msPerDay
  let spinAmount := calculatePortionOf b.spinPeriod msSinceLastFrame msPerDay
  match orbitsRef with
  | some p =>
    let tm0 : Mat4 := 1
    let tm1 := beforeOrbit b tm0
    let tm2 := if p.orbits then orbitStepMoon b p orbitAmount tm1
               else orbitStepPlanet b orbitAmount tm1
    let m1 := b.modelViewMatrix * tm2
    let b1 := { b with
      modelViewMatrix := afterOrbit b spinAmount m1,
      isNotFirstAnimationFrame := true }
    updateAttributes b1 orbitAmount spinAmount
  | none =>
    if b.spins then
      updateAttributes
        { b with modelViewMatrix := mat4rotate b.modelViewMatrix spinAmount yAxis }
        orbitAmount spinAmount
    else
      updateAttributes b orbitAmount spinAmount

/-- Iterated animation of a single body: frame n feeds the body the current
state of its orbited body through the pars sequence. -/
def animateIter (pars : Nat → Option Body) (r t : ℝ) (b : Body) : Nat → Body
  | 0 => b
  | n + 1 => animate (animateIter pars r t b n) (pars n) r t

/-- The world position of a body: its model view matrix applied to the
homogeneous origin. -/
def worldPosition (b : Body) : Fin 4 → ℝ :=
  b.modelViewMatrix.mulVec ![0, 0, 0, 1]

/-- The mutable state of the frame driver of app.js: the time of the last
frame (false, modelled as none, when unset or paused) and the registry of
bodies with, for each body, the index of the body it orbits. -/
structure AppState where
  timeLastFrame : Option ℝ
  bodies : List Body
  parents : List (Option Nat)

open Classical in
/-- Function millisecondsSinceLastFrame of app.js: returns the elapsed
milliseconds and the new timeLastFrame.  A stored time of 0 is falsy in
JavaScript and is treated like an unset baseline. -/
def millisecondsSinceLastFrame (timeLastFrame : Option ℝ) (timeThisFrame : ℝ) :
    ℝ × Option ℝ :=
  let tl := match timeLastFrame with
    | none => timeThisFrame
    | some x => if x = 0 then timeThisFrame else x
  (timeThisFrame - tl, some timeThisFrame)

/-- One in-place animate of the body at index i, reading the current state
of its orbited body at index pidx. -/
def animateStep (bs : List Body) (r t : ℝ) (i : Nat) (pidx : Option Nat) : List Body :=
  match bs.get? i with
  | none => bs
  | some b => bs.set i (animate b (pidx.bind fun j => bs.get? j) r t)

/-- The animate loop of app.js: every body of the registry is animated in
order, each reading the already-updated state of the bodies before it. -/
def animateAll (bs : List Body) (parents : List (Option Nat)) (r t : ℝ) : List Body :=
  parents.enum.foldl (fun acc x => animateStep acc r t x.1 x.2) bs

/-- Function run of app.js, for one animation-frame callback: when paused,
only reset the frame-time baseline; otherwise draw (render only, no body
state change) and animate every body with the elapsed milliseconds. -/
def run (s : AppState) (paused : Bool) (now r : ℝ) : AppState :=
  if paused then { s with timeLastFrame := none }
  else
    let ms := millisecondsSinceLastFrame s.timeLastFrame now
    { s with timeLastFrame := ms.2, bodies := animateAll s.bodies s.parents r ms.1 }

/-- A sequence of frame-driver callbacks, each with its pause flag and its
wall-clock time. -/
def runSeq (s : AppState) (inputs : List (Bool × ℝ)) (r : ℝ) : AppState :=
  inputs.foldl (fun acc x => run acc x.1 x.2 r) s

/-- The Galaxy configuration of solar_system.js: a root body that does not
spin. -/
def galaxyConfig : Config :=
  { name := some "Galaxy", origin := some ![0, 0, 0],
    radius := some 6000000, spins := some false }

/-- The Sun configuration of solar_system.js. -/
def theSunConfig : Config :=
  { name := some "Sun", origin := some ![0, 0, 0], spinPeriod := some 29,
    radius := some 432500, axis := some 7.25, useLighting := some false }

/-- The Sun, as constructed at startup (the random draw is irrelevant for a
root body and fixed to 1 here). -/
def theSunBody : Body := construct theSunConfig 1

/-- The Saturn configuration of solar_system.js. -/
def saturnConfig : Config :=
  { name := some "Saturn", orbits := some theSunBody,
    orbitDistance := some 886000000, orbitalPeriod := some 10760.27,
    spinPeriod := some 0.44, radius := some 36184, axis := some 26.73 }

/-- Saturn as constructed at startup, with random draw 1. -/
def saturnBody : Body := construct saturnConfig 1

/-- The configuration of the rings of Saturn from solar_system.js: no
periods and no orbit distance are configured. -/
def saturnsRingsConfig : Config :=
  { name := some "Saturn\x27s Rings", orbits := some saturnBody,
    spherical := some false, radius := some 85000, axis := some 27,
    useLighting := some false }

/-- A root sun for a small concrete sun, planet, moon scenario (named S so
that no name-based special case fires); its normalised radius is 1. -/
def scenarioSunConfig : Config :=
  { name := some "S", origin := some ![0, 0, 0], radius := some 100 }

/-- The scenario sun, with random draw 1. -/
def scenarioSunBody : Body := construct scenarioSunConfig 1

/-- A planet orbiting the scenario sun: normalised radius 1, normalised
orbit distance 98, hence distance from the orbited body 100; one-day
orbital period. -/
def scenarioPlanetConfig : Config :=
  { name := some "P", orbits := some scenarioSunBody,
    orbitDistance := some 4900000, orbitalPeriod := some 1,
    spinPeriod := some 1, radius := some 100 }

/-- The scenario planet, with random draw 1 (starting phase 2 pi). -/
def scenarioPlanetBody : Body := construct scenarioPlanetConfig 1

/-- A moon orbiting the scenario planet: normalised radius 1, normalised
orbit distance 8, hence distance from the orbited body 10; half-day orbital
period. -/
def scenarioMoonConfig : Config :=
  { name := some "M", orbits := some scenarioPlanetBody,
    orbitDistance := some 400000, orbitalPeriod := some (1 / 2),
    spinPeriod := some 1, radius := some 100 }

/-- The scenario moon, with random draw 1 (starting phase 2 pi). -/
def scenarioMoonBody : Body := construct scenarioMoonConfig 1

/-- Composing two glMatrix translations adds the translation vectors. -/
lemma translationMat_mul (v w : Vec3) :
    translationMat v * translationMat w = translationMat (v + w) := by
  ext i j
  fin_cases i <;> fin_cases j <;>
    simp [translationMat, Matrix.mul_apply, Fin.sum_univ_four,
          Matrix.vecHead, Matrix.vecTail] <;> ring

/-- Composing two translations along the Z axis. -/
lemma tzMul (a b : ℝ) :
    translationMat ![0, 0, a] * translationMat ![0, 0, b] = translationMat ![0, 0, a + b] := by
  rw [translationMat_mul]
  norm_num

/-- Reassociated form of tzMul for rewriting inside right-nested products. -/
lemma tzMulAssoc (a b : ℝ) (M : Mat4) :
    translationMat ![0, 0, a] * (translationMat ![0, 0, b] * M)
      = translationMat ![0, 0, a + b] * M := by
  rw [← mul_assoc, tzMul]

/-- The zero translation is the identity matrix. -/
lemma translationMat_zero : translationMat ![0, 0, (0 : ℝ)] = 1 := by
  ext i j
  fin_cases i <;> fin_cases j <;>
    simp [translationMat, Matrix.one_apply, Matrix.vecHead, Matrix.vecTail]

/-- The glMatrix rotation about the world Y axis in closed form. -/
lemma rotationMat_yAxis (rad : ℝ) :
    rotationMat rad yAxis
      = Matrix.of ![![Real.cos rad, 0, Real.sin rad, 0],
                    ![0, 1, 0, 0],
                    ![-Real.sin rad, 0, Real.cos rad, 0],
                    ![0, 0, 0, 1]] := by
  ext i j
  fin_cases i <;> fin_cases j <;>
    simp [rotationMat, yAxis, Real.sqrt_one, Matrix.vecHead, Matrix.vecTail] <;> ring

/-- Composing two rotations about the world Y axis adds the angles. -/
lemma rotYMul (a b : ℝ) :
    rotationMat a yAxis * rotationMat b yAxis = rotationMat (a + b) yAxis := by
  rw [rotationMat_yAxis, rotationMat_yAxis, rotationMat_yAxis]
  ext i j
  fin_cases i <;> fin_cases j <;>
    simp [Matrix.mul_apply, Fin.sum_univ_four, Real.cos_add, Real.sin_add,
          Matrix.vecHead, Matrix.vecTail] <;> ring

/-- Reassociated form of rotYMul for rewriting inside right-nested products. -/
lemma rotYMulAssoc (a b : ℝ) (M : Mat4) :
    rotationMat a yAxis * (rotationMat b yAxis * M) = rotationMat (a + b) yAxis * M := by
  rw [← mul_assoc, rotYMul]

/-- The zero rotation about the Y axis is the identity matrix. -/
lemma rotYZero : rotationMat 0 yAxis = 1 := by
  rw [rotationMat_yAxis]
  ext i j
  fin_cases i <;> fin_cases j <;>
    simp [Matrix.one_apply, Matrix.vecHead, Matrix.vecTail]

/-- Unfold a matrix product applied to a vector. -/
lemma mulVecSplit (A B : Mat4) (v : Fin 4 → ℝ) :
    (A * B).mulVec v = A.mulVec (B.mulVec v) :=
  (Matrix.mulVec_mulVec v A B).symm

/-- A translation applied to a homogeneous vector. -/
lemma translationMat_mulVec (v : Vec3) (w : Fin 4 → ℝ) :
    (translationMat v).mulVec w
      = ![w 0 + v 0 * w 3, w 1 + v 1 * w 3, w 2 + v 2 * w 3, w 3] := by
  funext i
  fin_cases i <;>
    simp [translationMat, Matrix.mulVec, Matrix.dotProduct, Fin.sum_univ_four,
          Matrix.vecHead, Matrix.vecTail] <;> ring

/-- A rotation about the world Y axis applied to a homogeneous vector. -/
lemma rotY_mulVec (rad : ℝ) (w : Fin 4 → ℝ) :
    (rotationMat rad yAxis).mulVec w
      = ![Real.cos rad * w 0 + Real.sin rad * w 2, w 1,
          -Real.sin rad * w 0 + Real.cos rad * w 2, w 3] := by
  rw [rotationMat_yAxis]
  funext i
  fin_cases i <;>
    simp [Matrix.mulVec, Matrix.dotProduct, Fin.sum_univ_four,
          Matrix.vecHead, Matrix.vecTail] <;> ring

/-- Any glMatrix rotation fixes the homogeneous origin. -/
lemma rot_mulVec_origin (rad : ℝ) (a : Vec3) :
    (rotationMat rad a).mulVec ![0, 0, 0, 1] = ![0, 0, 0, 1] := by
  funext i
  fin_cases i <;>
    simp [rotationMat, Matrix.mulVec, Matrix.dotProduct, Fin.sum_univ_four,
          Matrix.vecHead, Matrix.vecTail]

/-- One animate call changes only the angle bookkeeping, the transform and
the first-frame flag: every configuration-derived field is preserved. -/
lemma animate_statics (b : Body) (orbitsRef : Option Body) (r t : ℝ) :
    (animate b orbitsRef r t).name = b.name
    ∧ (animate b orbitsRef r t).orbits = b.orbits
    ∧ (animate b orbitsRef r t).orbitalPeriod = b.orbitalPeriod
    ∧ (animate b orbitsRef r t).spinPeriod = b.spinPeriod
    ∧ (animate b orbitsRef r t).distanceFromBodyWeAreOrbiting
        = b.distanceFromBodyWeAreOrbiting
    ∧ (animate b orbitsRef r t).origin = b.origin
    ∧ (animate b orbitsRef r t).radius = b.radius
    ∧ (animate b orbitsRef r t).axis = b.axis
    ∧ (animate b orbitsRef r t).axisArray = b.axisArray
    ∧ (animate b orbitsRef r t).spins = b.spins
    ∧ (animate b orbitsRef r t).spinsClockwise = b.spinsClockwise
    ∧ (animate b orbitsRef r t).orbitDistance = b.orbitDistance := by
  cases orbitsRef <;> simp only [animate, updateAttributes] <;> (try split) <;> simp

/-- The angle bookkeeping of one animate call, in every branch. -/
lemma animate_angles (b : Body) (orbitsRef : Option Body) (r t : ℝ) :
    (animate b orbitsRef r t).lastOrbitAngle
        = calculatePortionOf b.orbitalPeriod t r
    ∧ (animate b orbitsRef r t).cumulativeOrbitAngle
        = b.cumulativeOrbitAngle + calculatePortionOf b.orbitalPeriod t r
    ∧ (animate b orbitsRef r t).lastSpinAngle
        = b.lastSpinAngle + calculatePortionOf b.spinPeriod t r := by
  cases orbitsRef <;> simp only [animate, updateAttributes] <;> (try split) <;> simp

/-- Claim C1: one animate call with rate r (milliseconds per simulated day)
and elapsed time t computes the orbit angle delta of the frame as
2 pi t / (r orbitalPeriod) and the spin angle delta as
2 pi t / (r spinPeriod); in particular a period of 10 days at r = 1000 and
t = 500 gives an orbit delta of pi / 10 and a period of 2 days gives a spin
delta of pi / 2. -/
theorem claim_C1_frame_deltas :
    (∀ (b : Body) (orbitsRef : Option Body) (r t : ℝ),
        (animate b orbitsRef r t).lastOrbitAngle
            = 2 * Real.pi * t / (r * b.orbitalPeriod)
        ∧ (animate b orbitsRef r t).lastSpinAngle - b.lastSpinAngle
            = 2 * Real.pi * t / (r * b.spinPeriod))
    ∧ calculatePortionOf 10 500 1000 = Real.pi / 10
    ∧ calculatePortionOf 2 500 1000 = Real.pi / 2 := by
  refine ⟨fun b orbitsRef r t => ⟨?_, ?_⟩, ?_, ?_⟩
  · rw [(animate_angles b orbitsRef r t).1, calculatePortionOf]
    ring
  · rw [(animate_angles b orbitsRef r t).2.2, calculatePortionOf]
    ring
  · rw [calculatePortionOf]
    norm_num
    ring
  · rw [calculatePortionOf]
    norm_num
    ring

/-- Claim C4: after each animate call, lastOrbitAngle is replaced by the
orbit delta of the frame, cumulativeOrbitAngle is incremented by it,
lastSpinAngle is incremented by the spin delta, and no other angle field
(axis, axisArray) changes. -/
theorem claim_C4_update_running_state :
    ∀ (b : Body) (orbitsRef : Option Body) (r t : ℝ),
      (animate b orbitsRef r t).lastOrbitAngle
          = calculatePortionOf b.orbitalPeriod t r
      ∧ (animate b orbitsRef r t).cumulativeOrbitAngle
          = b.cumulativeOrbitAngle + calculatePortionOf b.orbitalPeriod t r
      ∧ (animate b orbitsRef r t).lastSpinAngle
          = b.lastSpinAngle + calculatePortionOf b.spinPeriod t r
      ∧ (animate b orbitsRef r t).axis = b.axis
      ∧ (animate b orbitsRef r t).axisArray = b.axisArray := by
  intro b orbitsRef r t
  exact ⟨(animate_angles b orbitsRef r t).1, (animate_angles b orbitsRef r t).2.1,
         (animate_angles b orbitsRef r t).2.2, (animate_statics b orbitsRef r t).2.2.2.2.2.2.2.1,
         (animate_statics b orbitsRef r t).2.2.2.2.2.2.2.2.1⟩

/-- The ratio of an angle in degrees converted to radians over the converted
right angle is the plain ratio of the degree values. -/
lemma degreesToRadians_ratio (d : ℝ) :
    degreesToRadians d / degreesToRadians 90 = d / 90 := by
  have hpi := Real.pi_ne_zero
  unfold degreesToRadians
  field_simp
  ring

/-- Projections of setAttributes for a body that is not the ring system:
the configured values with their defaults, the derived axis vector, and the
fields setAttributes does not touch. -/
lemma setAttributes_common (b : Body) (c : Config)
    (hn : c.name.getD "name not set" ≠ "Saturn\x27s Rings") :
    (setAttributes b c).name = c.name.getD "name not set"
    ∧ (setAttributes b c).orbits = c.orbits.isSome
    ∧ (setAttributes b c).orbitalPeriod = ((jsNumOr c.orbitalPeriod 1 : ℚ) : ℝ)
    ∧ (setAttributes b c).spinPeriod = ((jsNumOr c.spinPeriod 1 : ℚ) : ℝ)
    ∧ (setAttributes b c).spins = getBoolean c.spins true
    ∧ (setAttributes b c).spinsClockwise = getBoolean c.spinsClockwise false
    ∧ (setAttributes b c).lastOrbitAngle = b.lastOrbitAngle
    ∧ (setAttributes b c).cumulativeOrbitAngle = b.cumulativeOrbitAngle
    ∧ (setAttributes b c).lastSpinAngle = b.lastSpinAngle
    ∧ (setAttributes b c).modelViewMatrix = b.modelViewMatrix
    ∧ (setAttributes b c).isNotFirstAnimationFrame = b.isNotFirstAnimationFrame
    ∧ (setAttributes b c).axisArray
        = ![((jsNumOr c.axis 0 : ℚ) : ℝ) / 90,
            1 - ((jsNumOr c.axis 0 : ℚ) : ℝ) / 90, 0] := by
  rcases hco : c.orbits with _ | p <;>
    simp only [setAttributes, setAxis, normalise, prepareSpecialCases, hco] <;>
    split_ifs with h1 h2 <;>
    simp_all [degreesToRadians_ratio]

/-- Projections of setAttributes for the ring system with a parent: zero
distance and the periods of the parent. -/
lemma setAttributes_ring (b : Body) (c : Config) (p : Body)
    (hn : c.name = some "Saturn\x27s Rings") (ho : c.orbits = some p) :
    (setAttributes b c).distanceFromBodyWeAreOrbiting = 0
    ∧ (setAttributes b c).orbitalPeriod = p.orbitalPeriod
    ∧ (setAttributes b c).spinPeriod = p.spinPeriod
    ∧ (setAttributes b c).name = "Saturn\x27s Rings"
    ∧ (setAttributes b c).orbits = true
    ∧ (setAttributes b c).lastOrbitAngle = b.lastOrbitAngle
    ∧ (setAttributes b c).cumulativeOrbitAngle = b.cumulativeOrbitAngle
    ∧ (setAttributes b c).modelViewMatrix = b.modelViewMatrix
    ∧ (setAttributes b c).isNotFirstAnimationFrame = b.isNotFirstAnimationFrame := by
  simp only [setAttributes, setAxis, normalise, prepareSpecialCases, hn, ho,
             Option.getD_some]
  rw [if_neg (by decide : ¬("Saturn\x27s Rings" : String) = "Sun")]
  simp

/-- setOrigin changes only the origin field. -/
lemma setOrigin_statics (b : Body) (o : Option Vec3) (orbitsRef : Option Body) :
    (setOrigin b o orbitsRef).name = b.name
    ∧ (setOrigin b o orbitsRef).orbits = b.orbits
    ∧ (setOrigin b o orbitsRef).orbitalPeriod = b.orbitalPeriod
    ∧ (setOrigin b o orbitsRef).spinPeriod = b.spinPeriod
    ∧ (setOrigin b o orbitsRef).spins = b.spins
    ∧ (setOrigin b o orbitsRef).spinsClockwise = b.spinsClockwise
    ∧ (setOrigin b o orbitsRef).axisArray = b.axisArray
    ∧ (setOrigin b o orbitsRef).distanceFromBodyWeAreOrbiting
        = b.distanceFromBodyWeAreOrbiting
    ∧ (setOrigin b o orbitsRef).lastOrbitAngle = b.lastOrbitAngle
    ∧ (setOrigin b o orbitsRef).cumulativeOrbitAngle = b.cumulativeOrbitAngle
    ∧ (setOrigin b o orbitsRef).lastSpinAngle = b.lastSpinAngle
    ∧ (setOrigin b o orbitsRef).modelViewMatrix = b.modelViewMatrix
    ∧ (setOrigin b o orbitsRef).isNotFirstAnimationFrame = b.isNotFirstAnimationFrame := by
  rcases o with _ | o <;> rcases orbitsRef with _ | p <;> simp [setOrigin]

/-- setRandomStartingOrbit changes only the three angle fields, and always
leaves lastOrbitAngle equal to cumulativeOrbitAngle with lastSpinAngle 0. -/
lemma setRandomStartingOrbit_statics (b : Body) (hasOrbits : Bool) (u : ℝ) :
    (setRandomStartingOrbit b hasOrbits u).name = b.name
    ∧ (setRandomStartingOrbit b hasOrbits u).orbits = b.orbits
    ∧ (setRandomStartingOrbit b hasOrbits u).orbitalPeriod = b.orbitalPeriod
    ∧ (setRandomStartingOrbit b hasOrbits u).spinPeriod = b.spinPeriod
    ∧ (setRandomStartingOrbit b hasOrbits u).spins = b.spins
    ∧ (setRandomStartingOrbit b hasOrbits u).spinsClockwise = b.spinsClockwise
    ∧ (setRandomStartingOrbit b hasOrbits u).axisArray = b.axisArray
    ∧ (setRandomStartingOrbit b hasOrbits u).distanceFromBodyWeAreOrbiting
        = b.distanceFromBodyWeAreOrbiting
    ∧ (setRandomStartingOrbit b hasOrbits u).origin = b.origin
    ∧ (setRandomStartingOrbit b hasOrbits u).modelViewMatrix = b.modelViewMatrix
    ∧ (setRandomStartingOrbit b hasOrbits u).isNotFirstAnimationFrame
        = b.isNotFirstAnimationFrame
    ∧ (setRandomStartingOrbit b hasOrbits u).lastOrbitAngle
        = (setRandomStartingOrbit b hasOrbits u).cumulativeOrbitAngle
    ∧ (setRandomStartingOrbit b hasOrbits u).lastSpinAngle = 0 := by
  simp only [setRandomStartingOrbit]
  split_ifs <;> simp

/-- initMatrix changes only the model view matrix, which it sets to the
documented initial composition. -/
lemma initMatrix_statics (b : Body) (orbitsRef : Option Body) :
    (initMatrix b orbitsRef).name = b.name
    ∧ (initMatrix b orbitsRef).orbits = b.orbits
    ∧ (initMatrix b orbitsRef).orbitalPeriod = b.orbitalPeriod
    ∧ (initMatrix b orbitsRef).spinPeriod = b.spinPeriod
    ∧ (initMatrix b orbitsRef).spins = b.spins
    ∧ (initMatrix b orbitsRef).spinsClockwise = b.spinsClockwise
    ∧ (initMatrix b orbitsRef).axisArray = b.axisArray
    ∧ (initMatrix b orbitsRef).distanceFromBodyWeAreOrbiting
        = b.distanceFromBodyWeAreOrbiting
    ∧ (initMatrix b orbitsRef).origin = b.origin
    ∧ (initMatrix b orbitsRef).lastOrbitAngle = b.lastOrbitAngle
    ∧ (initMatrix b orbitsRef).cumulativeOrbitAngle = b.cumulativeOrbitAngle
    ∧ (initMatrix b orbitsRef).lastSpinAngle = b.lastSpinAngle
    ∧ (initMatrix b orbitsRef).isNotFirstAnimationFrame = b.isNotFirstAnimationFrame := by
  rcases orbitsRef with _ | p <;> simp [initMatrix]

/-- The fields of setAttributes that do not depend on the name-based special
cases: the carried-over animation state and the directly configured flags
and axis vector. -/
lemma setAttributes_carried (b : Body) (c : Config) :
    (setAttributes b c).lastOrbitAngle = b.lastOrbitAngle
    ∧ (setAttributes b c).cumulativeOrbitAngle = b.cumulativeOrbitAngle
    ∧ (setAttributes b c).lastSpinAngle = b.lastSpinAngle
    ∧ (setAttributes b c).modelViewMatrix = b.modelViewMatrix
    ∧ (setAttributes b c).isNotFirstAnimationFrame = b.isNotFirstAnimationFrame
    ∧ (setAttributes b c).orbits = c.orbits.isSome
    ∧ (setAttributes b c).name = c.name.getD "name not set"
    ∧ (setAttributes b c).spins = getBoolean c.spins true
    ∧ (setAttributes b c).spinsClockwise = getBoolean c.spinsClockwise false
    ∧ (setAttributes b c).axisArray
        = ![((jsNumOr c.axis 0 : ℚ) : ℝ) / 90,
            1 - ((jsNumOr c.axis 0 : ℚ) : ℝ) / 90, 0] := by
  rcases hco : c.orbits with _ | p <;>
    simp only [setAttributes, setAxis, normalise, prepareSpecialCases, hco] <;>
    split_ifs <;>
    simp [degreesToRadians_ratio, hco]

/-- Projections of a constructed body that hold for every configuration. -/
lemma construct_flags (c : Config) (u : ℝ) :
    (construct c u).orbits = c.orbits.isSome
    ∧ (construct c u).isNotFirstAnimationFrame = false
    ∧ (construct c u).lastOrbitAngle = (construct c u).cumulativeOrbitAngle
    ∧ (construct c u).lastSpinAngle = 0
    ∧ (construct c u).name = c.name.getD "name not set"
    ∧ (construct c u).spins = getBoolean c.spins true
    ∧ (construct c u).spinsClockwise = getBoolean c.spinsClockwise false := by
  obtain ⟨a1, a2, a3, a4, a5, a6, a7, a8, a9, a10⟩ := setAttributes_carried emptyBody c
  obtain ⟨o1, o2, o3, o4, o5, o6, o7, o8, o9, o10, o11, o12, o13⟩ :=
    setOrigin_statics (setAttributes emptyBody c) c.origin c.orbits
  obtain ⟨r1, r2, r3, r4, r5, r6, r7, r8, r9, r10, r11, r12, r13⟩ :=
    setRandomStartingOrbit_statics
      (setOrigin (setAttributes emptyBody c) c.origin c.orbits) c.orbits.isSome u
  obtain ⟨i1, i2, i3, i4, i5, i6, i7, i8, i9, i10, i11, i12, i13⟩ :=
    initMatrix_statics
      (setRandomStartingOrbit (setOrigin (setAttributes emptyBody c) c.origin c.orbits)
        c.orbits.isSome u) c.orbits
  unfold construct
  refine ⟨?_, ?_, ?_, ?_, ?_, ?_, ?_⟩
  · rw [i2, r2, o2, a6]
  · rw [i13, r11, o13, a5]
    rfl
  · rw [i10, i11, r12]
  · rw [i12, r13]
  · rw [i1, r1, o1, a7]
  · rw [i5, r5, o5, a8]
  · rw [i6, r6, o6, a9]

/-- The axis vector of any constructed body, in degree-ratio form. -/
lemma construct_axisArray (c : Config) (u : ℝ) :
    (construct c u).axisArray
      = ![((jsNumOr c.axis 0 : ℚ) : ℝ) / 90,
          1 - ((jsNumOr c.axis 0 : ℚ) : ℝ) / 90, 0] := by
  obtain ⟨a1, a2, a3, a4, a5, a6, a7, a8, a9, a10⟩ := setAttributes_carried emptyBody c
  obtain ⟨o1, o2, o3, o4, o5, o6, o7, o8, o9, o10, o11, o12, o13⟩ :=
    setOrigin_statics (setAttributes emptyBody c) c.origin c.orbits
  obtain ⟨r1, r2, r3, r4, r5, r6, r7, r8, r9, r10, r11, r12, r13⟩ :=
    setRandomStartingOrbit_statics
      (setOrigin (setAttributes emptyBody c) c.origin c.orbits) c.orbits.isSome u
  obtain ⟨i1, i2, i3, i4, i5, i6, i7, i8, i9, i10, i11, i12, i13⟩ :=
    initMatrix_statics
      (setRandomStartingOrbit (setOrigin (setAttributes emptyBody c) c.origin c.orbits)
        c.orbits.isSome u) c.orbits
  unfold construct
  rw [i7, r7, o7, a10]

/-- The periods of a constructed body that is not the ring system: the
configured values with the falsy default 1. -/
lemma construct_periods (c : Config) (u : ℝ)
    (hn : c.name.getD "name not set" ≠ "Saturn\x27s Rings") :
    (construct c u).orbitalPeriod = ((jsNumOr c.orbitalPeriod 1 : ℚ) : ℝ)
    ∧ (construct c u).spinPeriod = ((jsNumOr c.spinPeriod 1 : ℚ) : ℝ) := by
  obtain ⟨c1, c2, c3, c4, c5, c6, c7, c8, c9, c10, c11, c12⟩ :=
    setAttributes_common emptyBody c hn
  obtain ⟨o1, o2, o3, o4, o5, o6, o7, o8, o9, o10, o11, o12, o13⟩ :=
    setOrigin_statics (setAttributes emptyBody c) c.origin c.orbits
  obtain ⟨r1, r2, r3, r4, r5, r6, r7, r8, r9, r10, r11, r12, r13⟩ :=
    setRandomStartingOrbit_statics
      (setOrigin (setAttributes emptyBody c) c.origin c.orbits) c.orbits.isSome u
  obtain ⟨i1, i2, i3, i4, i5, i6, i7, i8, i9, i10, i11, i12, i13⟩ :=
    initMatrix_statics
      (setRandomStartingOrbit (setOrigin (setAttributes emptyBody c) c.origin c.orbits)
        c.orbits.isSome u) c.orbits
  unfold construct
  exact ⟨by rw [i3, r3, o3, c3], by rw [i4, r4, o4, c4]⟩

/-- The special-cased fields of a constructed ring system with a parent. -/
lemma construct_ring (c : Config) (p : Body) (u : ℝ)
    (hn : c.name = some "Saturn\x27s Rings") (ho : c.orbits = some p) :
    (construct c u).distanceFromBodyWeAreOrbiting = 0
    ∧ (construct c u).orbitalPeriod = p.orbitalPeriod
    ∧ (construct c u).spinPeriod = p.spinPeriod := by
  obtain ⟨s1, s2, s3, s4, s5, s6, s7, s8, s9⟩ := setAttributes_ring emptyBody c p hn ho
  obtain ⟨o1, o2, o3, o4, o5, o6, o7, o8, o9, o10, o11, o12, o13⟩ :=
    setOrigin_statics (setAttributes emptyBody c) c.origin c.orbits
  obtain ⟨r1, r2, r3, r4, r5, r6, r7, r8, r9, r10, r11, r12, r13⟩ :=
    setRandomStartingOrbit_statics
      (setOrigin (setAttributes emptyBody c) c.origin c.orbits) c.orbits.isSome u
  obtain ⟨i1, i2, i3, i4, i5, i6, i7, i8, i9, i10, i11, i12, i13⟩ :=
    initMatrix_statics
      (setRandomStartingOrbit (setOrigin (setAttributes emptyBody c) c.origin c.orbits)
        c.orbits.isSome u) c.orbits
  unfold construct
  exact ⟨by rw [i8, r8, o8, s1], by rw [i3, r3, o3, s2], by rw [i4, r4, o4, s3]⟩

/-- The falsy-or default against 1 is never zero after casting to the
reals. -/
lemma jsNumOr_one_ne_zero (v : Option ℚ) : ((jsNumOr v 1 : ℚ) : ℝ) ≠ 0 := by
  rcases v with _ | x
  · norm_num [jsNumOr]
  · by_cases hx : x = 0
    · simp [jsNumOr, hx]
    · simp only [jsNumOr, if_neg hx]
      exact_mod_cast hx

/-- Iterated animation preserves the configuration-derived fields. -/
lemma animateIter_statics (pars : Nat → Option Body) (r t : ℝ) (b : Body) :
    ∀ n : Nat,
      (animateIter pars r t b n).orbitalPeriod = b.orbitalPeriod
      ∧ (animateIter pars r t b n).spinPeriod = b.spinPeriod
      ∧ (animateIter pars r t b n).distanceFromBodyWeAreOrbiting
          = b.distanceFromBodyWeAreOrbiting
  | 0 => by simp [animateIter]
  | n + 1 => by
    obtain ⟨h1, h2, h3⟩ := animateIter_statics pars r t b n
    obtain ⟨_, _, s3, s4, s5, _⟩ := animate_statics (animateIter pars r t b n) (pars n) r t
    refine ⟨?_, ?_, ?_⟩ <;> simp only [animateIter]
    · rw [s3, h1]
    · rw [s4, h2]
    · rw [s5, h3]

/-- After n iterated animate calls with constant rate and elapsed time the
cumulative orbit angle has grown by n times the per-frame orbit delta. -/
lemma animateIter_cumulative (pars : Nat → Option Body) (r t : ℝ) (b : Body) :
    ∀ n : Nat,
      (animateIter pars r t b n).cumulativeOrbitAngle
        = b.cumulativeOrbitAngle + n * calculatePortionOf b.orbitalPeriod t r
  | 0 => by simp [animateIter]
  | n + 1 => by
    have hper := (animateIter_statics pars r t b n).1
    have ih := animateIter_cumulative pars r t b n
    have hang := (animate_angles (animateIter pars r t b n) (pars n) r t).2.1
    simp only [animateIter]
    rw [hang, ih, hper]
    push_cast
    ring

/-- Claim C5: after n animate calls, each with the same elapsed time t and
rate r, cumulativeOrbitAngle equals the initial phase set at construction
plus n times 2 pi t / (r orbitalPeriod); in the real-number model the
floating-point tolerance of the spec becomes exact equality. -/
theorem claim_C5_cumulative_growth :
    ∀ (c : Config) (u : ℝ) (pars : Nat → Option Body) (r t : ℝ) (n : Nat),
      (animateIter pars r t (construct c u) n).cumulativeOrbitAngle
        = (construct c u).cumulativeOrbitAngle
          + n * (2 * Real.pi * t / (r * (construct c u).orbitalPeriod)) := by
  intro c u pars r t n
  rw [animateIter_cumulative pars r t (construct c u) n, calculatePortionOf]
  ring

/-- Claim C7: a constructed ring body keeps distanceFromOrbitedBody 0 and
its parent's orbital and spin periods, after construction and across any
number of subsequent animate calls. -/
theorem claim_C7_ring_invariants (c : Config) (p : Body) (u : ℝ)
    (pars : Nat → Option Body) (r t : ℝ) (n : Nat)
    (hn : c.name = some "Saturn\x27s Rings") (ho : c.orbits = some p) :
    (animateIter pars r t (construct c u) n).distanceFromBodyWeAreOrbiting = 0
    ∧ (animateIter pars r t (construct c u) n).orbitalPeriod = p.orbitalPeriod
    ∧ (animateIter pars r t (construct c u) n).spinPeriod = p.spinPeriod := by
  obtain ⟨hd, hop, hsp⟩ := construct_ring c p u hn ho
  obtain ⟨i1, i2, i3⟩ := animateIter_statics pars r t (construct c u) n
  exact ⟨by rw [i3, hd], by rw [i1, hop], by rw [i2, hsp]⟩

/-- Witness for claim C7 at the concrete rings of Saturn after three
frames. -/
theorem claim_C7_witness :
    saturnsRingsConfig.name = some "Saturn\x27s Rings"
    ∧ saturnsRingsConfig.orbits = some saturnBody
    ∧ ((animateIter (fun _ => some saturnBody) 1000 500
          (construct saturnsRingsConfig 1) 3).distanceFromBodyWeAreOrbiting = 0
       ∧ (animateIter (fun _ => some saturnBody) 1000 500
            (construct saturnsRingsConfig 1) 3).orbitalPeriod = saturnBody.orbitalPeriod
       ∧ (animateIter (fun _ => some saturnBody) 1000 500
            (construct saturnsRingsConfig 1) 3).spinPeriod = saturnBody.spinPeriod) :=
  ⟨rfl, rfl,
   claim_C7_ring_invariants saturnsRingsConfig saturnBody 1
     (fun _ => some saturnBody) 1000 500 3 rfl rfl⟩

/-- Counterexample to claim C8 as stated: the rings of Saturn are configured
with no orbitalPeriod and no spinPeriod, yet the constructed body's periods
are Saturn's values, not 1. -/
theorem claim_C8_counterexample :
    saturnsRingsConfig.orbitalPeriod = none
    ∧ saturnsRingsConfig.spinPeriod = none
    ∧ (construct saturnsRingsConfig 1).orbitalPeriod ≠ 1
    ∧ (construct saturnsRingsConfig 1).spinPeriod ≠ 1 := by
  have hr := construct_ring saturnsRingsConfig saturnBody 1 rfl rfl
  have hs := construct_periods saturnConfig 1 (by decide)
  have hsb1 : saturnBody.orbitalPeriod = ((10760.27 : ℚ) : ℝ) := by
    rw [show saturnBody = construct saturnConfig 1 from rfl, hs.1]
    norm_num [jsNumOr, saturnConfig]
  have hsb2 : saturnBody.spinPeriod = ((0.44 : ℚ) : ℝ) := by
    rw [show saturnBody = construct saturnConfig 1 from rfl, hs.2]
    norm_num [jsNumOr, saturnConfig]
  refine ⟨rfl, rfl, ?_, ?_⟩
  · rw [hr.2.1, hsb1]
    norm_num
  · rw [hr.2.2, hsb2]
    norm_num

/-- Claim C8 (amended): for every configuration that is not the ring system
an omitted or zero period defaults to 1 and the constructed periods are
never zero, so with any rate r different from 0 the denominator r times
period of the per-frame delta computation is nonzero; the ring system
instead inherits its parent's periods, and enjoys the same nonzero
guarantee exactly when the parent's periods are nonzero. -/
theorem claim_C8_amended :
    (∀ (c : Config) (u : ℝ), c.name.getD "name not set" ≠ "Saturn\x27s Rings" →
      ((c.orbitalPeriod = none ∨ c.orbitalPeriod = some 0 →
          (construct c u).orbitalPeriod = 1)
       ∧ (c.spinPeriod = none ∨ c.spinPeriod = some 0 →
          (construct c u).spinPeriod = 1)
       ∧ ∀ r : ℝ, r ≠ 0 →
           r * (construct c u).orbitalPeriod ≠ 0
           ∧ r * (construct c u).spinPeriod ≠ 0))
    ∧ (∀ (c : Config) (p : Body) (u : ℝ),
        c.name = some "Saturn\x27s Rings" → c.orbits = some p →
        (construct c u).orbitalPeriod = p.orbitalPeriod
        ∧ (construct c u).spinPeriod = p.spinPeriod
        ∧ (p.orbitalPeriod ≠ 0 → p.spinPeriod ≠ 0 → ∀ r : ℝ, r ≠ 0 →
            r * (construct c u).orbitalPeriod ≠ 0
            ∧ r * (construct c u).spinPeriod ≠ 0)) := by
  constructor
  · intro c u hn
    obtain ⟨hop, hsp⟩ := construct_periods c u hn
    refine ⟨?_, ?_, ?_⟩
    · rintro (h | h) <;> rw [hop, h] <;> norm_num [jsNumOr]
    · rintro (h | h) <;> rw [hsp, h] <;> norm_num [jsNumOr]
    · intro r hr
      exact ⟨by rw [hop]; exact mul_ne_zero hr (jsNumOr_one_ne_zero _),
             by rw [hsp]; exact mul_ne_zero hr (jsNumOr_one_ne_zero _)⟩
  · intro c p u hn ho
    obtain ⟨_, hop, hsp⟩ := construct_ring c p u hn ho
    exact ⟨hop, hsp, fun h1 h2 r hr =>
      ⟨by rw [hop]; exact mul_ne_zero hr h1,
       by rw [hsp]; exact mul_ne_zero hr h2⟩⟩

/-- Witness for the amended claim C8 at the Galaxy configuration, whose
periods are omitted. -/
theorem claim_C8_witness :
    galaxyConfig.name.getD "name not set" ≠ "Saturn\x27s Rings"
    ∧ galaxyConfig.orbitalPeriod = none
    ∧ (1000 : ℝ) ≠ 0
    ∧ (construct galaxyConfig 1).orbitalPeriod = 1
    ∧ 1000 * (construct galaxyConfig 1).orbitalPeriod ≠ 0 :=
  ⟨by decide, rfl, by norm_num,
   (claim_C8_amended.1 galaxyConfig 1 (by decide)).1 (Or.inl rfl),
   ((claim_C8_amended.1 galaxyConfig 1 (by decide)).2.2 1000 (by norm_num)).1⟩

/-- Claim C9: a root body (no orbits reference) still has its orbit-angle
state mutated by every animate call: lastOrbitAngle is set to the nonzero
frame delta 2 pi t / (r orbitalPeriod) and cumulativeOrbitAngle grows by
it, while the model view matrix changes only by the spin rotation about the
world Y axis, or not at all when spins is false. -/
theorem claim_C9_root_orbit_state (b : Body) (r t : ℝ)
    (ht : t ≠ 0) (hr : r ≠ 0) (hp : b.orbitalPeriod ≠ 0) :
    (animate b none r t).lastOrbitAngle = 2 * Real.pi * t / (r * b.orbitalPeriod)
    ∧ (animate b none r t).lastOrbitAngle ≠ 0
    ∧ (animate b none r t).cumulativeOrbitAngle
        = b.cumulativeOrbitAngle + 2 * Real.pi * t / (r * b.orbitalPeriod)
    ∧ (animate b none r t).modelViewMatrix
        = if b.spins then
            b.modelViewMatrix
              * rotationMat (calculatePortionOf b.spinPeriod t r) yAxis
          else b.modelViewMatrix := by
  have h1 : (animate b none r t).lastOrbitAngle
      = 2 * Real.pi * t / (r * b.orbitalPeriod) := by
    rw [(animate_angles b none r t).1, calculatePortionOf]
    ring
  refine ⟨h1, ?_, ?_, ?_⟩
  · rw [h1]
    exact div_ne_zero
      (mul_ne_zero (mul_ne_zero two_ne_zero Real.pi_ne_zero) ht)
      (mul_ne_zero hr hp)
  · rw [(animate_angles b none r t).2.1, calculatePortionOf]
    ring
  · by_cases hs : b.spins <;>
      simp [animate, updateAttributes, mat4rotate, hs]

/-- Witness for claim C9 at the constructed Galaxy (a root body with spins
false) at rate 1000 and elapsed time 500. -/
theorem claim_C9_witness :
    (500 : ℝ) ≠ 0 ∧ (1000 : ℝ) ≠ 0
    ∧ (construct galaxyConfig 1).orbitalPeriod ≠ 0
    ∧ (animate (construct galaxyConfig 1) none 1000 500).lastOrbitAngle
        = 2 * Real.pi * 500 / (1000 * (construct galaxyConfig 1).orbitalPeriod)
    ∧ (animate (construct galaxyConfig 1) none 1000 500).lastOrbitAngle ≠ 0 := by
  have hp : (construct galaxyConfig 1).orbitalPeriod ≠ 0 := by
    rw [(construct_periods galaxyConfig 1 (by decide)).1]
    norm_num [jsNumOr, galaxyConfig]
  have h := claim_C9_root_orbit_state (construct galaxyConfig 1) 1000 500
      (by norm_num) (by norm_num) hp
  exact ⟨by norm_num, by norm_num, hp, h.1, h.2.1⟩

/-- Claim C10: for an axis input of d degrees the stored spin-axis vector is
exactly (d/90, 1 - d/90, 0) and is never normalised; hence for every d
above 90 degrees its first component exceeds 1, its second component is
negative, and the vector is not of unit length. -/
theorem claim_C10_axis_vector :
    (∀ (c : Config) (u : ℝ),
        (construct c u).axisArray
          = ![((jsNumOr c.axis 0 : ℚ) : ℝ) / 90,
              1 - ((jsNumOr c.axis 0 : ℚ) : ℝ) / 90, 0])
    ∧ ∀ d : ℚ, 90 < d →
        (setAxis emptyBody (some d)).axisArray 0 > 1
        ∧ (setAxis emptyBody (some d)).axisArray 1 < 0
        ∧ ((setAxis emptyBody (some d)).axisArray 0) ^ 2
            + ((setAxis emptyBody (some d)).axisArray 1) ^ 2
            + ((setAxis emptyBody (some d)).axisArray 2) ^ 2 ≠ 1 := by
  refine ⟨construct_axisArray, fun d hd => ?_⟩
  have hd0 : ¬d = 0 := by
    intro h
    rw [h] at hd
    norm_num at hd
  have harr : (setAxis emptyBody (some d)).axisArray
      = ![(d : ℝ) / 90, 1 - (d : ℝ) / 90, 0] := by
    simp [setAxis, jsNumOr, hd0, degreesToRadians_ratio]
  have hdr : (90 : ℝ) < (d : ℝ) := by exact_mod_cast hd
  have hx : (1 : ℝ) < (d : ℝ) / 90 :=
    (one_lt_div (by norm_num : (0 : ℝ) < 90)).mpr hdr
  rw [harr]
  have e0 : (![(d : ℝ) / 90, 1 - (d : ℝ) / 90, 0] : Vec3) 0 = (d : ℝ) / 90 := rfl
  have e1 : (![(d : ℝ) / 90, 1 - (d : ℝ) / 90, 0] : Vec3) 1 = 1 - (d : ℝ) / 90 := rfl
  have e2 : (![(d : ℝ) / 90, 1 - (d : ℝ) / 90, 0] : Vec3) 2 = 0 := rfl
  rw [e0, e1, e2]
  exact ⟨hx, by linarith, fun h => by nlinarith⟩

/-- Witness for claim C10 at the configured Venus axis of 177.36 degrees. -/
theorem claim_C10_witness :
    (90 : ℚ) < 177.36
    ∧ (setAxis emptyBody (some 177.36)).axisArray 0 > 1
    ∧ (setAxis emptyBody (some 177.36)).axisArray 1 < 0 :=
  ⟨by norm_num, (claim_C10_axis_vector.2 177.36 (by norm_num)).1,
   (claim_C10_axis_vector.2 177.36 (by norm_num)).2.1⟩

/-- A paused driver callback only resets the frame-time baseline. -/
lemma run_paused (s : AppState) (now r : ℝ) :
    run s true now r = { s with timeLastFrame := none } := by
  simp [run]

/-- Any nonempty sequence of paused driver callbacks leaves the bodies and
parent links untouched and ends with an unset frame-time baseline. -/
lemma runSeq_paused (s : AppState) (inputs : List (Bool × ℝ)) (r : ℝ)
    (h : ∀ x ∈ inputs, x.1 = true) :
    (runSeq s inputs r).bodies = s.bodies
    ∧ (runSeq s inputs r).parents = s.parents
    ∧ (inputs ≠ [] → (runSeq s inputs r).timeLastFrame = none) := by
  induction inputs generalizing s with
  | nil => simp [runSeq]
  | cons x xs ih =>
    have hx : x.1 = true := h x (by simp)
    have hxs : ∀ y ∈ xs, y.1 = true := fun y hy => h y (by simp [hy])
    have hrs : runSeq s (x :: xs) r = runSeq { s with timeLastFrame := none } xs r := by
      simp [runSeq, List.foldl_cons, hx, run_paused]
    obtain ⟨ihb, ihp, iht⟩ := ih hxs (s := { s with timeLastFrame := none })
    refine ⟨?_, ?_, fun _ => ?_⟩
    · rw [hrs, ihb]
    · rw [hrs, ihp]
    · rcases xs with _ | ⟨y, ys⟩
      · rw [hrs]
        simp [runSeq]
      · rw [hrs]
        exact iht (by simp)

/-- With an unset baseline the elapsed milliseconds of the next frame are
zero. -/
lemma msSinceLastFrame_none (now : ℝ) :
    millisecondsSinceLastFrame none now = (0, some now) := by
  simp [millisecondsSinceLastFrame]

/-- An unpaused driver callback right after a baseline reset animates every
body with elapsed time zero. -/
lemma run_unpaused_after_reset (s : AppState) (now r : ℝ)
    (h : s.timeLastFrame = none) :
    run s false now r
      = { timeLastFrame := some now,
          bodies := animateAll s.bodies s.parents r 0,
          parents := s.parents } := by
  simp [run, h, millisecondsSinceLastFrame]

/-- Claim C6: any number of paused driver callbacks leaves every body (its
transform and all angle state) unchanged, and the first callback after
unpausing computes 0 elapsed milliseconds, so the bodies are then animated
with elapsed time 0. -/
theorem claim_C6_pause_idempotent (s : AppState) (inputs : List (Bool × ℝ))
    (r now : ℝ) (hp : ∀ x ∈ inputs, x.1 = true) (hne : inputs ≠ []) :
    (runSeq s inputs r).bodies = s.bodies
    ∧ (millisecondsSinceLastFrame (runSeq s inputs r).timeLastFrame now).1 = 0
    ∧ run (runSeq s inputs r) false now r
        = { timeLastFrame := some now,
            bodies := animateAll s.bodies s.parents r 0,
            parents := s.parents } := by
  obtain ⟨hb, hpar, ht⟩ := runSeq_paused s inputs r hp
  refine ⟨hb, ?_, ?_⟩
  · rw [ht hne, msSinceLastFrame_none]
  · rw [run_unpaused_after_reset _ now r (ht hne), hb, hpar]

/-- Witness for claim C6 with one paused callback over a one-body world. -/
theorem claim_C6_witness :
    (∀ x ∈ [((true : Bool), (3 : ℝ))], x.1 = true)
    ∧ ([((true : Bool), (3 : ℝ))] : List (Bool × ℝ)) ≠ []
    ∧ (runSeq ⟨some 7, [construct galaxyConfig 1], [none]⟩
         [(true, 3)] 1000).bodies = [construct galaxyConfig 1]
    ∧ (millisecondsSinceLastFrame
        (runSeq ⟨some 7, [construct galaxyConfig 1], [none]⟩
          [(true, 3)] 1000).timeLastFrame 5).1 = 0 := by
  have h1 : ∀ x ∈ [((true : Bool), (3 : ℝ))], x.1 = true := by simp
  have h2 : ([((true : Bool), (3 : ℝ))] : List (Bool × ℝ)) ≠ [] := by simp
  have h := claim_C6_pause_idempotent
    ⟨some 7, [construct galaxyConfig 1], [none]⟩ [(true, 3)] 1000 5 h1 h2
  exact ⟨h1, h2, h.1, h.2.1⟩

/-- Claim C2: for a body b orbiting a body p that itself orbits (a moon),
one animate call builds the orbit transform of the frame as exactly the
seven-step composition of the claim applied to the identity (the un-spin
prefix is empty on a first frame), and right-multiplies this product into
the model view matrix of b, followed by the separately documented re-spin
rotations. -/
theorem claim_C2_moon_orbit_composition (b p : Body) (r t : ℝ) (M : Mat4)
    (hp : p.orbits = true) (hf : b.isNotFirstAnimationFrame = false) :
    orbitStepMoon b p (calculatePortionOf b.orbitalPeriod t r) M
      = M * (translationMat ![0, 0, b.distanceFromBodyWeAreOrbiting]
          * (rotationMat (-b.cumulativeOrbitAngle) yAxis
          * (translationMat ![0, 0, p.distanceFromBodyWeAreOrbiting]
          * (rotationMat p.lastOrbitAngle yAxis
          * (translationMat ![0, 0, -p.distanceFromBodyWeAreOrbiting]
          * (rotationMat (b.cumulativeOrbitAngle
                + calculatePortionOf b.orbitalPeriod t r) yAxis
          * translationMat ![0, 0, -b.distanceFromBodyWeAreOrbiting]))))))
    ∧ (animate b (some p) r t).modelViewMatrix
        = b.modelViewMatrix
          * (translationMat ![0, 0, b.distanceFromBodyWeAreOrbiting]
          * (rotationMat (-b.cumulativeOrbitAngle) yAxis
          * (translationMat ![0, 0, p.distanceFromBodyWeAreOrbiting]
          * (rotationMat p.lastOrbitAngle yAxis
          * (translationMat ![0, 0, -p.distanceFromBodyWeAreOrbiting]
          * (rotationMat (b.cumulativeOrbitAngle
                + calculatePortionOf b.orbitalPeriod t r) yAxis
          * translationMat ![0, 0, -b.distanceFromBodyWeAreOrbiting]))))))
          * rotationMat 1 b.axisArray
          * rotationMat (if b.spinsClockwise then
                -b.lastSpinAngle - calculatePortionOf b.spinPeriod t r
              else b.lastSpinAngle + calculatePortionOf b.spinPeriod t r) yAxis := by
  constructor
  · simp [orbitStepMoon, mat4translate, mat4rotate, mul_assoc]
  · simp [animate, beforeOrbit, hf, hp, afterOrbit, updateAttributes,
          orbitStepMoon, mat4translate, mat4rotate, mul_assoc]

/-- Witness for claim C2 at the concrete scenario moon orbiting the
scenario planet. -/
theorem claim_C2_witness :
    scenarioPlanetBody.orbits = true
    ∧ scenarioMoonBody.isNotFirstAnimationFrame = false
    ∧ orbitStepMoon scenarioMoonBody scenarioPlanetBody
        (calculatePortionOf scenarioMoonBody.orbitalPeriod 500 1000) 1
      = 1 * (translationMat ![0, 0, scenarioMoonBody.distanceFromBodyWeAreOrbiting]
          * (rotationMat (-scenarioMoonBody.cumulativeOrbitAngle) yAxis
          * (translationMat ![0, 0, scenarioPlanetBody.distanceFromBodyWeAreOrbiting]
          * (rotationMat scenarioPlanetBody.lastOrbitAngle yAxis
          * (translationMat ![0, 0, -scenarioPlanetBody.distanceFromBodyWeAreOrbiting]
          * (rotationMat (scenarioMoonBody.cumulativeOrbitAngle
                + calculatePortionOf scenarioMoonBody.orbitalPeriod 500 1000) yAxis
          * translationMat ![0, 0, -scenarioMoonBody.distanceFromBodyWeAreOrbiting])))))) := by
  have hp : scenarioPlanetBody.orbits = true := by
    rw [show scenarioPlanetBody = construct scenarioPlanetConfig 1 from rfl,
        (construct_flags scenarioPlanetConfig 1).1]
    rfl
  have hf : scenarioMoonBody.isNotFirstAnimationFrame = false :=
    (construct_flags scenarioMoonConfig 1).2.1
  exact ⟨hp, hf,
    (claim_C2_moon_orbit_composition scenarioMoonBody scenarioPlanetBody
      1000 500 1 hp hf).1⟩

/-- Initial transform of a constructed body that orbits a non-orbiting body
(a planet): a rotation by its starting phase followed by the translation to
its orbit radius. -/
lemma construct_orbit_shape (c : Config) (p : Body) (u : ℝ)
    (ho : c.orbits = some p) (hp : p.orbits = false) :
    (construct c u).modelViewMatrix
      = rotationMat (construct c u).lastOrbitAngle yAxis
        * translationMat ![0, 0, -(construct c u).distanceFromBodyWeAreOrbiting] := by
  unfold construct
  rw [ho]
  simp [initMatrix, hp, mat4translate, mat4rotate]

/-- Initial transform of a constructed body whose orbited body itself
orbits (a moon): pre-rotation by the orbited body's last orbit angle and
pre-translation by its origin, then the body's own phase rotation and
radius translation. -/
lemma construct_moon_shape (c : Config) (p : Body) (u : ℝ)
    (ho : c.orbits = some p) (hp : p.orbits = true) :
    (construct c u).modelViewMatrix
      = rotationMat p.lastOrbitAngle yAxis
        * (translationMat p.origin
        * (rotationMat (construct c u).lastOrbitAngle yAxis
        * translationMat ![0, 0, -(construct c u).distanceFromBodyWeAreOrbiting])) := by
  unfold construct
  rw [ho]
  simp [initMatrix, hp, mat4translate, mat4rotate, mul_assoc]

/-- Derived origin of a constructed orbiting body when the orbited body
sits at the world origin. -/
lemma construct_origin_orbit (c : Config) (p : Body) (u : ℝ)
    (ho : c.orbits = some p) (hno : c.origin = none) (hp0 : p.origin = ![0, 0, 0]) :
    (construct c u).origin
      = ![0, 0, -(construct c u).distanceFromBodyWeAreOrbiting] := by
  obtain ⟨i1, i2, i3, i4, i5, i6, i7, i8, i9, i10, i11, i12, i13⟩ :=
    initMatrix_statics
      (setRandomStartingOrbit (setOrigin (setAttributes emptyBody c) c.origin c.orbits)
        c.orbits.isSome u) c.orbits
  obtain ⟨r1, r2, r3, r4, r5, r6, r7, r8, r9, r10, r11, r12, r13⟩ :=
    setRandomStartingOrbit_statics
      (setOrigin (setAttributes emptyBody c) c.origin c.orbits) c.orbits.isSome u
  have o8 :=
    (setOrigin_statics (setAttributes emptyBody c) c.origin c.orbits).2.2.2.2.2.2.2.1
  unfold construct
  rw [i9, r9, i8, r8, o8, hno, ho]
  simp [setOrigin, hp0]

/-- One first-frame animate call on a body orbiting a non-orbiting body, in
closed form: the stored rotation angle advances by the frame's orbit delta
and the re-spin rotations follow the radius translation. -/
lemma animate_planet_shape (b p : Body) (r t a : ℝ)
    (hf : b.isNotFirstAnimationFrame = false) (hp : p.orbits = false)
    (hm : b.modelViewMatrix
        = rotationMat a yAxis
          * translationMat ![0, 0, -b.distanceFromBodyWeAreOrbiting]) :
    (animate b (some p) r t).modelViewMatrix
      = rotationMat (a + calculatePortionOf b.orbitalPeriod t r) yAxis
        * (translationMat ![0, 0, -b.distanceFromBodyWeAreOrbiting]
        * (rotationMat 1 b.axisArray
        * rotationMat (if b.spinsClockwise then
              -b.lastSpinAngle - calculatePortionOf b.spinPeriod t r
            else b.lastSpinAngle + calculatePortionOf b.spinPeriod t r) yAxis)) := by
  simp only [animate, beforeOrbit, hf, hp, afterOrbit, updateAttributes,
             orbitStepPlanet, mat4translate, mat4rotate, Bool.false_eq_true,
             if_false, hm]
  simp [mul_assoc, tzMulAssoc, rotYMulAssoc, translationMat_zero, rotYZero,
        neg_add_cancel, add_neg_cancel]

/-- One first-frame animate call on a body whose orbited body itself
orbits, in closed form: the outer rotation advances by the orbited body's
last orbit angle and the inner rotation by the body's own frame delta. -/
lemma animate_moon_shape (b p : Body) (r t ap am dp : ℝ)
    (hf : b.isNotFirstAnimationFrame = false) (hp : p.orbits = true)
    (hcum : b.cumulativeOrbitAngle = am)
    (hdp : p.distanceFromBodyWeAreOrbiting = dp)
    (hm : b.modelViewMatrix
        = rotationMat ap yAxis
          * (translationMat ![0, 0, -dp]
          * (rotationMat am yAxis
          * translationMat ![0, 0, -b.distanceFromBodyWeAreOrbiting]))) :
    (animate b (some p) r t).modelViewMatrix
      = rotationMat (ap + p.lastOrbitAngle) yAxis
        * (translationMat ![0, 0, -dp]
        * (rotationMat (am + calculatePortionOf b.orbitalPeriod t r) yAxis
        * (translationMat ![0, 0, -b.distanceFromBodyWeAreOrbiting]
        * (rotationMat 1 b.axisArray
        * rotationMat (if b.spinsClockwise then
              -b.lastSpinAngle - calculatePortionOf b.spinPeriod t r
            else b.lastSpinAngle + calculatePortionOf b.spinPeriod t r) yAxis)))) := by
  simp only [animate, beforeOrbit, hf, hp, afterOrbit, updateAttributes,
             orbitStepMoon, mat4translate, mat4rotate, Bool.false_eq_true,
             if_false, hm, hcum, hdp, if_true]
  simp [mul_assoc, tzMulAssoc, rotYMulAssoc, translationMat_zero, rotYZero,
        neg_add_cancel, add_neg_cancel]

/-- The re-spin tail of an animate call fixes the homogeneous origin. -/
lemma spinTail_fixes_origin (ax : Vec3) (sigma : ℝ) :
    (rotationMat 1 ax * rotationMat sigma yAxis).mulVec ![0, 0, 0, 1]
      = ![0, 0, 0, 1] := by
  rw [mulVecSplit, rot_mulVec_origin, rot_mulVec_origin]

/-- World position of a planet-form transform. -/
lemma pos_planet_form (theta d : ℝ) (Mtail : Mat4)
    (htail : Mtail.mulVec ![0, 0, 0, 1] = ![0, 0, 0, 1]) :
    (rotationMat theta yAxis
       * (translationMat ![0, 0, -d] * Mtail)).mulVec ![0, 0, 0, 1]
      = ![-(Real.sin theta * d), 0, -(Real.cos theta * d), 1] := by
  simp only [mulVecSplit, htail, translationMat_mulVec, rotY_mulVec]
  funext i
  fin_cases i <;> simp <;> ring

/-- World position of a moon-form transform: the planet contribution plus
the moon offset rotated by the sum of the two angles. -/
lemma pos_moon_form (thetap dp thetam dm : ℝ) (Mtail : Mat4)
    (htail : Mtail.mulVec ![0, 0, 0, 1] = ![0, 0, 0, 1]) :
    (rotationMat thetap yAxis
       * (translationMat ![0, 0, -dp]
       * (rotationMat thetam yAxis
       * (translationMat ![0, 0, -dm] * Mtail)))).mulVec ![0, 0, 0, 1]
      = ![-(Real.sin thetap * dp) - Real.sin (thetap + thetam) * dm, 0,
          -(Real.cos thetap * dp) - Real.cos (thetap + thetam) * dm, 1] := by
  simp only [mulVecSplit, htail, translationMat_mulVec, rotY_mulVec]
  funext i
  fin_cases i <;> simp [Real.sin_add, Real.cos_add] <;> ring

/-- Core of the moon-position analysis.  For a planet and a moon in the
state produced by construction (first frames ahead, phase equal to the
cumulative angle, transforms in the initial shapes), one animate call on
the planet followed by one on the moon places the moon at the planet's new
world position plus the moon's orbital offset rotated about the world Y
axis by the sum of the planet's and the moon's updated cumulative orbit
angles. -/
lemma moon_pos_core (planet0 moon0 sun : Body) (r t : ℝ)
    (hpf : planet0.isNotFirstAnimationFrame = false)
    (hmf : moon0.isNotFirstAnimationFrame = false)
    (hs1 : sun.orbits = false)
    (hpo : planet0.orbits = true)
    (hplast : planet0.lastOrbitAngle = planet0.cumulativeOrbitAngle)
    (hpshape : planet0.modelViewMatrix
        = rotationMat planet0.lastOrbitAngle yAxis
          * translationMat ![0, 0, -planet0.distanceFromBodyWeAreOrbiting])
    (hmshape : moon0.modelViewMatrix
        = rotationMat planet0.lastOrbitAngle yAxis
          * (translationMat ![0, 0, -planet0.distanceFromBodyWeAreOrbiting]
          * (rotationMat moon0.cumulativeOrbitAngle yAxis
          * translationMat ![0, 0, -moon0.distanceFromBodyWeAreOrbiting]))) :
    worldPosition (animate moon0 (some (animate planet0 (some sun) r t)) r t)
      = worldPosition (animate planet0 (some sun) r t)
        + (rotationMat
             ((animate planet0 (some sun) r t).cumulativeOrbitAngle
               + (animate moon0 (some (animate planet0 (some sun) r t)) r t).cumulativeOrbitAngle)
             yAxis).mulVec
            ![0, 0, -moon0.distanceFromBodyWeAreOrbiting, 0] := by
  have hP := animate_planet_shape planet0 sun r t planet0.lastOrbitAngle hpf hs1 hpshape
  have hpo1 : (animate planet0 (some sun) r t).orbits = true := by
    rw [(animate_statics planet0 (some sun) r t).2.1]
    exact hpo
  have hpd1 := (animate_statics planet0 (some sun) r t).2.2.2.2.1
  have hplast1 := (animate_angles planet0 (some sun) r t).1
  have hpcum1 : (animate planet0 (some sun) r t).cumulativeOrbitAngle
      = planet0.lastOrbitAngle + calculatePortionOf planet0.orbitalPeriod t r := by
    rw [(animate_angles planet0 (some sun) r t).2.1, hplast]
  have hmcum1 := (animate_angles moon0 (some (animate planet0 (some sun) r t)) r t).2.1
  have hM := animate_moon_shape moon0 (animate planet0 (some sun) r t) r t
      planet0.lastOrbitAngle moon0.cumulativeOrbitAngle
      planet0.distanceFromBodyWeAreOrbiting hmf hpo1 rfl hpd1 hmshape
  simp only [worldPosition]
  rw [hM, hP,
      pos_moon_form _ _ _ _ _ (spinTail_fixes_origin _ _),
      pos_planet_form _ _ _ (spinTail_fixes_origin _ _),
      rotY_mulVec, hplast1, hpcum1, hmcum1]
  funext i
  fin_cases i <;> simp <;> ring

/-- An explicitly configured origin is stored unchanged. -/
lemma construct_origin_explicit (c : Config) (o : Vec3) (u : ℝ)
    (ho : c.origin = some o) :
    (construct c u).origin = o := by
  obtain ⟨i1, i2, i3, i4, i5, i6, i7, i8, i9, i10, i11, i12, i13⟩ :=
    initMatrix_statics
      (setRandomStartingOrbit (setOrigin (setAttributes emptyBody c) c.origin c.orbits)
        c.orbits.isSome u) c.orbits
  obtain ⟨r1, r2, r3, r4, r5, r6, r7, r8, r9, r10, r11, r12, r13⟩ :=
    setRandomStartingOrbit_statics
      (setOrigin (setAttributes emptyBody c) c.origin c.orbits) c.orbits.isSome u
  unfold construct
  rw [i9, r9, ho]
  simp [setOrigin]

/-- The starting phase of a constructed counterclockwise orbiting body that
is not the ring system: 2 pi over the random draw. -/
lemma construct_phase_orbit (c : Config) (u : ℝ)
    (hn : c.name.getD "name not set" ≠ "Saturn\x27s Rings")
    (ho : c.orbits.isSome = true)
    (hcw : getBoolean c.spinsClockwise false = false) :
    (construct c u).cumulativeOrbitAngle = Real.pi * 2 / u := by
  have hb2name : (setOrigin (setAttributes emptyBody c) c.origin c.orbits).name
      = c.name.getD "name not set" := by
    rw [(setOrigin_statics _ _ _).1, (setAttributes_carried _ _).2.2.2.2.2.2.1]
  have hb2cw : (setOrigin (setAttributes emptyBody c) c.origin c.orbits).spinsClockwise
      = getBoolean c.spinsClockwise false := by
    rw [(setOrigin_statics _ _ _).2.2.2.2.2.1, (setAttributes_carried _ _).2.2.2.2.2.2.2.2.1]
  have hi := (initMatrix_statics
      (setRandomStartingOrbit (setOrigin (setAttributes emptyBody c) c.origin c.orbits)
        c.orbits.isSome u) c.orbits).2.2.2.2.2.2.2.2.2.2.1
  unfold construct
  rw [hi]
  simp only [setRandomStartingOrbit, hb2name, hb2cw, hcw, ho]
  rw [if_neg hn]
  simp

/-- The derived distance from the orbited body, for a body that is neither
the Sun nor the ring system. -/
lemma construct_distance_orbit (c : Config) (p : Body) (u : ℝ)
    (hn1 : c.name.getD "name not set" ≠ "Sun")
    (hn2 : c.name.getD "name not set" ≠ "Saturn\x27s Rings")
    (ho : c.orbits = some p) :
    (construct c u).distanceFromBodyWeAreOrbiting
      = ((jsNumOr c.radius 10 : ℚ) : ℝ) / 100
        + ((jsNumOr c.orbitDistance 0 : ℚ) : ℝ) / 50000 + p.radius := by
  obtain ⟨i1, i2, i3, i4, i5, i6, i7, i8, i9, i10, i11, i12, i13⟩ :=
    initMatrix_statics
      (setRandomStartingOrbit (setOrigin (setAttributes emptyBody c) c.origin c.orbits)
        c.orbits.isSome u) c.orbits
  obtain ⟨r1, r2, r3, r4, r5, r6, r7, r8, r9, r10, r11, r12, r13⟩ :=
    setRandomStartingOrbit_statics
      (setOrigin (setAttributes emptyBody c) c.origin c.orbits) c.orbits.isSome u
  have o8 :=
    (setOrigin_statics (setAttributes emptyBody c) c.origin c.orbits).2.2.2.2.2.2.2.1
  unfold construct
  rw [i8, r8, o8]
  simp only [setAttributes, setAxis, normalise, prepareSpecialCases, ho]
  split_ifs with h1 h2 <;> simp_all

/-- The normalised radius of a constructed body that is not the Sun. -/
lemma construct_radius_nonsun (c : Config) (u : ℝ)
    (hn1 : c.name.getD "name not set" ≠ "Sun") :
    (construct c u).radius = ((jsNumOr c.radius 10 : ℚ) : ℝ) / 100 := by
  have hseq : ∀ (b : Body) (o : Option Vec3) (orbitsRef : Option Body),
      (setOrigin b o orbitsRef).radius = b.radius := by
    intro b o orbitsRef
    rcases o with _ | o <;> rcases orbitsRef with _ | p <;> simp [setOrigin]
  have hrand : ∀ (b : Body) (hb : Bool) (v : ℝ),
      (setRandomStartingOrbit b hb v).radius = b.radius := by
    intro b hb v
    simp only [setRandomStartingOrbit]
    split_ifs <;> simp
  have hinit : ∀ (b : Body) (orbitsRef : Option Body),
      (initMatrix b orbitsRef).radius = b.radius := by
    intro b orbitsRef
    rcases orbitsRef with _ | p <;> simp [initMatrix]
  unfold construct
  rw [hinit, hrand, hseq]
  rcases hco : c.orbits with _ | p <;>
    simp only [setAttributes, setAxis, normalise, prepareSpecialCases, hco] <;>
    split_ifs <;> simp_all

/-- Moon position after the first frame, at the configuration level: the
sun is any non-orbiting body at the world origin, and the planet and the
moon are constructed from configurations referencing it. -/
lemma moon_position_config (sun : Body) (cp cm : Config) (up um r t : ℝ)
    (hs1 : sun.orbits = false) (hs2 : sun.origin = ![0, 0, 0])
    (hp1 : cp.orbits = some sun) (hp2 : cp.origin = none)
    (hm1 : cm.orbits = some (construct cp up)) (hm2 : cm.origin = none) :
    worldPosition
        (animate (construct cm um)
          (some (animate (construct cp up) (some sun) r t)) r t)
      = worldPosition (animate (construct cp up) (some sun) r t)
        + (rotationMat
             ((animate (construct cp up) (some sun) r t).cumulativeOrbitAngle
               + (animate (construct cm um)
                    (some (animate (construct cp up) (some sun) r t)) r t).cumulativeOrbitAngle)
             yAxis).mulVec
            ![0, 0, -(construct cm um).distanceFromBodyWeAreOrbiting, 0] := by
  have hpo : (construct cp up).orbits = true := by
    rw [(construct_flags cp up).1, hp1]
    rfl
  apply moon_pos_core
  · exact (construct_flags cp up).2.1
  · exact (construct_flags cm um).2.1
  · exact hs1
  · exact hpo
  · exact (construct_flags cp up).2.2.1
  · exact construct_orbit_shape cp sun up hp1 hs1
  · rw [construct_moon_shape cm (construct cp up) um hm1 hpo,
        construct_origin_orbit cp sun up hp1 hp2 hs2,
        (construct_flags cm um).2.2.1]

/-- Claim C3 (amended): for a moon orbiting a planet that orbits a root sun
at the world origin, after one animate call on the planet followed by one
on the moon with the same rate and elapsed time, the moon's world position
(its transform applied to the homogeneous origin) equals the planet's new
world position plus the moon's orbital offset vector of length
distanceFromOrbitedBody rotated about the world Y axis by the sum of the
planet's and the moon's updated cumulative orbit angles (not by the moon's
angle alone). -/
theorem claim_C3_amended_moon_position (sun : Body) (cp cm : Config)
    (up um r t : ℝ)
    (hs1 : sun.orbits = false) (hs2 : sun.origin = ![0, 0, 0])
    (hp1 : cp.orbits = some sun) (hp2 : cp.origin = none)
    (hm1 : cm.orbits = some (construct cp up)) (hm2 : cm.origin = none) :
    worldPosition
        (animate (construct cm um)
          (some (animate (construct cp up) (some sun) r t)) r t)
      = worldPosition (animate (construct cp up) (some sun) r t)
        + (rotationMat
             ((animate (construct cp up) (some sun) r t).cumulativeOrbitAngle
               + (animate (construct cm um)
                    (some (animate (construct cp up) (some sun) r t)) r t).cumulativeOrbitAngle)
             yAxis).mulVec
            ![0, 0, -(construct cm um).distanceFromBodyWeAreOrbiting, 0] :=
  moon_position_config sun cp cm up um r t hs1 hs2 hp1 hp2 hm1 hm2

/-- Witness for the amended claim C3 at the concrete sun, planet, moon
scenario with rate 1000 and elapsed time 500. -/
theorem claim_C3_witness :
    scenarioSunBody.orbits = false
    ∧ scenarioSunBody.origin = ![0, 0, 0]
    ∧ scenarioPlanetConfig.orbits = some scenarioSunBody
    ∧ scenarioPlanetConfig.origin = none
    ∧ scenarioMoonConfig.orbits = some (construct scenarioPlanetConfig 1)
    ∧ scenarioMoonConfig.origin = none
    ∧ worldPosition
        (animate (construct scenarioMoonConfig 1)
          (some (animate (construct scenarioPlanetConfig 1)
            (some scenarioSunBody) 1000 500)) 1000 500)
      = worldPosition
          (animate (construct scenarioPlanetConfig 1) (some scenarioSunBody) 1000 500)
        + (rotationMat
             ((animate (construct scenarioPlanetConfig 1)
                 (some scenarioSunBody) 1000 500).cumulativeOrbitAngle
               + (animate (construct scenarioMoonConfig 1)
                    (some (animate (construct scenarioPlanetConfig 1)
                      (some scenarioSunBody) 1000 500)) 1000 500).cumulativeOrbitAngle)
             yAxis).mulVec
            ![0, 0, -(construct scenarioMoonConfig 1).distanceFromBodyWeAreOrbiting, 0] := by
  have hs1 : scenarioSunBody.orbits = false := by
    rw [show scenarioSunBody = construct scenarioSunConfig 1 from rfl,
        (construct_flags scenarioSunConfig 1).1]
    rfl
  have hs2 : scenarioSunBody.origin = ![0, 0, 0] :=
    construct_origin_explicit scenarioSunConfig ![0, 0, 0] 1 rfl
  exact ⟨hs1, hs2, rfl, rfl, rfl, rfl,
    claim_C3_amended_moon_position scenarioSunBody scenarioPlanetConfig
      scenarioMoonConfig 1 1 1000 500 hs1 hs2 rfl rfl rfl rfl⟩

/-- Counterexample to claim C3 as stated: in the concrete scenario the
moon's world position is the planet's position plus the offset rotated by
7 pi (the sum of both cumulative angles), not by the moon's cumulative
angle 4 pi alone; the two candidate positions differ by 20 units along
the Z axis. -/
theorem claim_C3_counterexample :
    ¬ (worldPosition
          (animate (construct scenarioMoonConfig 1)
            (some (animate (construct scenarioPlanetConfig 1)
              (some scenarioSunBody) 1000 500)) 1000 500)
        = worldPosition
            (animate (construct scenarioPlanetConfig 1) (some scenarioSunBody) 1000 500)
          + (rotationMat
               (animate (construct scenarioMoonConfig 1)
                  (some (animate (construct scenarioPlanetConfig 1)
                    (some scenarioSunBody) 1000 500)) 1000 500).cumulativeOrbitAngle
               yAxis).mulVec
              ![0, 0, -(construct scenarioMoonConfig 1).distanceFromBodyWeAreOrbiting, 0]) := by
  intro hclaim
  have hs1 : scenarioSunBody.orbits = false := by
    rw [show scenarioSunBody = construct scenarioSunConfig 1 from rfl,
        (construct_flags scenarioSunConfig 1).1]
    rfl
  have hs2 : scenarioSunBody.origin = ![0, 0, 0] :=
    construct_origin_explicit scenarioSunConfig ![0, 0, 0] 1 rfl
  have h := moon_position_config scenarioSunBody scenarioPlanetConfig
      scenarioMoonConfig 1 1 1000 500 hs1 hs2 rfl rfl rfl rfl
  rw [h] at hclaim
  have hcancel := add_left_cancel hclaim
  have e1 : (animate (construct scenarioPlanetConfig 1)
        (some scenarioSunBody) 1000 500).cumulativeOrbitAngle = 3 * Real.pi := by
    rw [(animate_angles (construct scenarioPlanetConfig 1)
          (some scenarioSunBody) 1000 500).2.1,
        construct_phase_orbit scenarioPlanetConfig 1 (by decide) rfl rfl,
        calculatePortionOf, (construct_periods scenarioPlanetConfig 1 (by decide)).1]
    norm_num [scenarioPlanetConfig, jsNumOr]
    ring
  have e2 : (animate (construct scenarioMoonConfig 1)
        (some (animate (construct scenarioPlanetConfig 1)
          (some scenarioSunBody) 1000 500)) 1000 500).cumulativeOrbitAngle
      = 4 * Real.pi := by
    rw [(animate_angles (construct scenarioMoonConfig 1)
          (some (animate (construct scenarioPlanetConfig 1)
            (some scenarioSunBody) 1000 500)) 1000 500).2.1,
        construct_phase_orbit scenarioMoonConfig 1 (by decide) rfl rfl,
        calculatePortionOf, (construct_periods scenarioMoonConfig 1 (by decide)).1]
    norm_num [scenarioMoonConfig, jsNumOr]
    ring
  have edm : (construct scenarioMoonConfig 1).distanceFromBodyWeAreOrbiting = 10 := by
    rw [construct_distance_orbit scenarioMoonConfig (construct scenarioPlanetConfig 1) 1
          (by decide) (by decide) rfl,
        construct_radius_nonsun scenarioPlanetConfig 1 (by decide)]
    norm_num [scenarioMoonConfig, scenarioPlanetConfig, jsNumOr]
  rw [e1, e2, edm, rotY_mulVec, rotY_mulVec] at hcancel
  have c7 : Real.cos (3 * Real.pi + 4 * Real.pi) = -1 := by
    rw [show (3 : ℝ) * Real.pi + 4 * Real.pi
          = ((3 : ℕ) : ℝ) * (2 * Real.pi) + Real.pi by push_cast; ring]
    exact Real.cos_nat_mul_two_pi_add_pi 3
  have c4 : Real.cos (4 * Real.pi) = 1 := by
    rw [show (4 : ℝ) * Real.pi = ((2 : ℕ) : ℝ) * (2 * Real.pi) by push_cast; ring]
    exact Real.cos_nat_mul_two_pi 2
  have h2 := congrFun hcancel 2
  simp [c7, c4] at h2
  norm_num at h2

end SolarSim

end
